import Mathlib

/-!
Shallow embedding of `src/qtrace-pro/example_code_snippets/time_bomb.c`.

The C program reads the system clock (`time(NULL)`), decomposes the
resulting `time_t` into local calendar fields with `localtime`, and
branches on `t->tm_year + 1900 == 2038 && t->tm_mon == 0 && t->tm_mday == 19`:
the trigger branch calls `launch_nuke` (a single `printf`), the other
branch prints the normal-operation message; `main` then returns 0.

The libc clock and `localtime` are external to the repository, so the
embedded `main` is parameterized over them: `cMain` takes the `time_t`
value the clock returned and a `localtime` implementation mapping a
`time_t` to an optional `struct tm` (`none` models `localtime` returning
`NULL`).  The C code dereferences the `localtime` result with no `NULL`
check, so a `none` decomposition gives the embedded program no defined
result (`cMain` returns `none`, marking the undefined behavior of the
null-pointer dereference).

Observable effects are modelled as a trace: the only effectful calls in
the source are `printf` to standard output, so the effect type has a
single constructor recording a write to stdout.
-/

namespace TimeBomb

/-- Embedding of the C `struct tm` calendar decomposition (the nine
standard fields; the program reads only `tm_year`, `tm_mon`, `tm_mday`). -/
structure Tm where
  tm_sec : Int
  tm_min : Int
  tm_hour : Int
  tm_mday : Int
  tm_mon : Int
  tm_year : Int
  tm_wday : Int
  tm_yday : Int
  tm_isdst : Int
deriving DecidableEq, Repr

/-- Observable side effects of the program: the source's only effectful
statements are `printf` calls, i.e. writes to standard output. -/
inductive Effect where
  | stdoutWrite (s : String)
deriving DecidableEq, Repr

/-- Result of a completed run: the ordered trace of observable effects and
the process exit code (`main`'s return value). -/
structure ProgResult where
  stdout : List Effect
  exitCode : Int
deriving DecidableEq, Repr

/-- The string printed by `launch_nuke`. -/
def launch_nuke_message : String := "🔥 Nuke Launched! (Malicious logic triggered)\n"

/-- The string printed on the default branch of `main`. -/
def normal_message : String := "System running normally.\n"

/-- Effect trace of the C function `launch_nuke`: one `printf` to stdout. -/
def launch_nuke : List Effect := [Effect.stdoutWrite launch_nuke_message]

/-- Body of `main` after `localtime` has produced a valid `struct tm`:
the date comparison and the two branches, returning 0. -/
def mainWithTm (t : Tm) : ProgResult :=
  if t.tm_year + 1900 = 2038 ∧ t.tm_mon = 0 ∧ t.tm_mday = 19 then
    { stdout := launch_nuke, exitCode := 0 }
  else
    { stdout := [Effect.stdoutWrite normal_message], exitCode := 0 }

/-- Embedding of `main`, parameterized by the value the clock returned
(`nowRes`, the C `time_t now`) and the ambient `localtime` implementation.
`none` means `localtime` returned `NULL`, which the C code dereferences
unchecked: the program has no defined result there. -/
def cMain (nowRes : Int) (localtime : Int → Option Tm) : Option ProgResult :=
  match localtime nowRes with
  | none => none
  | some t => some (mainWithTm t)

/-- `main` as written: the clock is read at the top of `main`
(`time_t now = time(NULL);`) and the rest is `cMain` on that reading. -/
def cMainLive (clock : Unit → Int) (localtime : Int → Option Tm) : Option ProgResult :=
  cMain (clock ()) localtime

/-- `localtime` unfolding of `cMain` on a successful decomposition. -/
theorem cMain_some {nowRes : Int} {localtime : Int → Option Tm} {t : Tm}
    (h : localtime nowRes = some t) : cMain nowRes localtime = some (mainWithTm t) := by
  simp [cMain, h]

/-- `localtime` unfolding of `cMain` on a `NULL` decomposition. -/
theorem cMain_none {nowRes : Int} {localtime : Int → Option Tm}
    (h : localtime nowRes = none) : cMain nowRes localtime = none := by
  simp [cMain, h]

/-- The `struct tm` for 2038-01-19 12:00:00 local (the trigger date). -/
def tmTrigger : Tm :=
  { tm_sec := 0, tm_min := 0, tm_hour := 12, tm_mday := 19, tm_mon := 0,
    tm_year := 138, tm_wday := 2, tm_yday := 18, tm_isdst := 0 }

/-- The `struct tm` for 2038-01-19 23:59:59 local (last second of the
trigger date). -/
def tmTriggerLastSecond : Tm :=
  { tm_sec := 59, tm_min := 59, tm_hour := 23, tm_mday := 19, tm_mon := 0,
    tm_year := 138, tm_wday := 2, tm_yday := 18, tm_isdst := 0 }

/-- The `struct tm` for 2038-01-20 00:00:00 local (first instant after the
trigger date). -/
def tmDayAfterMidnight : Tm :=
  { tm_sec := 0, tm_min := 0, tm_hour := 0, tm_mday := 20, tm_mon := 0,
    tm_year := 138, tm_wday := 3, tm_yday := 19, tm_isdst := 0 }

/-- The `struct tm` for 2025-06-15 10:30:00 local (an ordinary
non-trigger date). -/
def tmOrdinary : Tm :=
  { tm_sec := 0, tm_min := 30, tm_hour := 10, tm_mday := 15, tm_mon := 5,
    tm_year := 125, tm_wday := 0, tm_yday := 165, tm_isdst := 0 }

/-- The `struct tm` that `localtime` produces for `time_t` value −1 in
UTC: 1969-12-31 23:59:59, one second before the epoch. -/
def tmEpochMinusOne : Tm :=
  { tm_sec := 59, tm_min := 59, tm_hour := 23, tm_mday := 31, tm_mon := 11,
    tm_year := 69, tm_wday := 3, tm_yday := 364, tm_isdst := 0 }

/-- A `localtime` implementation behaving like glibc in the UTC zone on
the clock-failure value `(time_t)(-1)`: it succeeds and yields
1969-12-31 23:59:59. -/
def localtimeAtFailure : Int → Option Tm :=
  fun _ => some tmEpochMinusOne

/-- A `localtime` implementation that always succeeds with the trigger
date's decomposition. -/
def localtimeTrig : Int → Option Tm :=
  fun _ => some tmTrigger

/-- A `localtime` implementation that always returns `NULL`. -/
def localtimeNull : Int → Option Tm :=
  fun _ => none

/-- Outputs of `n` consecutive invocations of the program, each run with
the same clock reading and the same `localtime` environment. -/
def invocationOutputs (n : Nat) (nowRes : Int) (localtime : Int → Option Tm) :
    List (Option ProgResult) :=
  (List.range n).map (fun _ => cMain nowRes localtime)

/-- Claim C1: `main` obtains the instant from the clock, decomposes it by
`localtime`, and when the local fields satisfy
year = 2038 ∧ month = January ∧ day = 19 it emits the fixed alternate
marker; otherwise it emits the fixed default marker; the two conditions
are contradictory and the two markers differ, so exactly one of the two
branches executes per invocation. -/
theorem main_exactly_one_branch
    (clock : Unit → Int) (localtime : Int → Option Tm) (t : Tm)
    (h : localtime (clock ()) = some t) :
    (((t.tm_year + 1900 = 2038 ∧ t.tm_mon = 0 ∧ t.tm_mday = 19) ∧
        cMainLive clock localtime =
          some ⟨[Effect.stdoutWrite launch_nuke_message], 0⟩) ∨
      (¬(t.tm_year + 1900 = 2038 ∧ t.tm_mon = 0 ∧ t.tm_mday = 19) ∧
        cMainLive clock localtime =
          some ⟨[Effect.stdoutWrite normal_message], 0⟩)) ∧
    launch_nuke_message ≠ normal_message := by
  refine ⟨?_, by decide⟩
  by_cases hc : t.tm_year + 1900 = 2038 ∧ t.tm_mon = 0 ∧ t.tm_mday = 19
  · left
    refine ⟨hc, ?_⟩
    simp [cMainLive, cMain, h, mainWithTm, launch_nuke, hc]
  · right
    refine ⟨hc, ?_⟩
    simp [cMainLive, cMain, h, mainWithTm, hc]

/-- Claim C1, witness: the theorem applied to a concrete clock and
`localtime` environment yielding the trigger date. -/
theorem main_exactly_one_branch_witness :
    (((tmTrigger.tm_year + 1900 = 2038 ∧ tmTrigger.tm_mon = 0 ∧
          tmTrigger.tm_mday = 19) ∧
        cMainLive (fun _ => 2147558400) localtimeTrig =
          some ⟨[Effect.stdoutWrite launch_nuke_message], 0⟩) ∨
      (¬(tmTrigger.tm_year + 1900 = 2038 ∧ tmTrigger.tm_mon = 0 ∧
          tmTrigger.tm_mday = 19) ∧
        cMainLive (fun _ => 2147558400) localtimeTrig =
          some ⟨[Effect.stdoutWrite normal_message], 0⟩)) ∧
    launch_nuke_message ≠ normal_message :=
  main_exactly_one_branch (fun _ => 2147558400) localtimeTrig tmTrigger rfl

/-- Claim C3: whenever the local decomposition of the current instant is
not (2038, January, 19), the program emits the default message, and only
that message, with exit code 0. -/
theorem nontrigger_emits_default_only
    (nowRes : Int) (localtime : Int → Option Tm) (t : Tm)
    (h : localtime nowRes = some t)
    (hc : ¬(t.tm_year + 1900 = 2038 ∧ t.tm_mon = 0 ∧ t.tm_mday = 19)) :
    cMain nowRes localtime = some ⟨[Effect.stdoutWrite normal_message], 0⟩ := by
  simp [cMain, h, mainWithTm, hc]

/-- Claim C3, witness: an ordinary 2025 date takes the default branch. -/
theorem nontrigger_emits_default_only_witness :
    cMain 1749983400 (fun _ => some tmOrdinary) =
      some ⟨[Effect.stdoutWrite normal_message], 0⟩ :=
  nontrigger_emits_default_only 1749983400 (fun _ => some tmOrdinary)
    tmOrdinary rfl (by decide)

/-- Claim C4: whenever the local decomposition of the current instant is
exactly (2038, January, 19), the program emits the alternate
(`launch_nuke`) message, and only that message, with exit code 0. -/
theorem trigger_emits_alternate_only
    (nowRes : Int) (localtime : Int → Option Tm) (t : Tm)
    (h : localtime nowRes = some t)
    (hc : t.tm_year + 1900 = 2038 ∧ t.tm_mon = 0 ∧ t.tm_mday = 19) :
    cMain nowRes localtime =
      some ⟨[Effect.stdoutWrite launch_nuke_message], 0⟩ := by
  simp [cMain, h, mainWithTm, launch_nuke, hc]

/-- Claim C4, witness: the trigger date takes the alternate branch. -/
theorem trigger_emits_alternate_only_witness :
    cMain 2147558400 localtimeTrig =
      some ⟨[Effect.stdoutWrite launch_nuke_message], 0⟩ :=
  trigger_emits_alternate_only 2147558400 localtimeTrig tmTrigger rfl (by decide)

/-- Claim C5: branch selection depends only on the local calendar-day
fields (`tm_year`, `tm_mon`, `tm_mday`), not on the time of day; in
particular 2038-01-19 23:59:59 local still produces the alternate output
and 2038-01-20 00:00:00 local produces the default output. -/
theorem branch_depends_only_on_date :
    (∀ t₁ t₂ : Tm, t₁.tm_year = t₂.tm_year → t₁.tm_mon = t₂.tm_mon →
        t₁.tm_mday = t₂.tm_mday → mainWithTm t₁ = mainWithTm t₂) ∧
    mainWithTm tmTriggerLastSecond =
      { stdout := [Effect.stdoutWrite launch_nuke_message], exitCode := 0 } ∧
    mainWithTm tmDayAfterMidnight =
      { stdout := [Effect.stdoutWrite normal_message], exitCode := 0 } := by
  refine ⟨?_, by decide, by decide⟩
  intro t₁ t₂ hy hm hd
  simp [mainWithTm, hy, hm, hd]

/-- Claim C5, witness: the date-only dependence applied to noon and the
last second of the trigger day. -/
theorem branch_depends_only_on_date_witness :
    mainWithTm tmTrigger = mainWithTm tmTriggerLastSecond :=
  branch_depends_only_on_date.1 tmTrigger tmTriggerLastSecond rfl rfl rfl

/-- Claim C2, counterexample: with the clock reporting failure — `time`
returns `(time_t)(-1)` — and `localtime` behaving as on real systems
(succeeding, yielding 1969-12-31 23:59:59), the program emits the
default-branch message with exit code 0: the clock failure is interpreted
as the benign default path, with no error message and no non-zero exit. -/
theorem clock_failure_counterexample :
    localtimeAtFailure (-1) = some tmEpochMinusOne ∧
    cMain (-1) localtimeAtFailure =
      some ⟨[Effect.stdoutWrite normal_message], 0⟩ :=
  ⟨rfl, by decide⟩

/-- Claim C2, amended: the code performs no clock-error handling. When the
clock reports failure by returning `(time_t)(-1)`, the value is passed to
`localtime` like any other instant; when `localtime` succeeds the program
emits the ordinary branch output for the decomposed date with exit code 0
(on real systems 1969-12-31, hence the default message), and when
`localtime` returns `NULL` the program dereferences the null pointer and
has no defined result. In no case is an error signal distinguishable from
the branch outputs emitted, and no non-zero exit code exists. -/
theorem clock_failure_absorbed (localtime : Int → Option Tm) :
    (∀ t : Tm, localtime (-1) = some t →
      cMain (-1) localtime = some (mainWithTm t) ∧
      (mainWithTm t).exitCode = 0 ∧
      ((mainWithTm t).stdout = [Effect.stdoutWrite launch_nuke_message] ∨
        (mainWithTm t).stdout = [Effect.stdoutWrite normal_message])) ∧
    (localtime (-1) = none → cMain (-1) localtime = none) := by
  constructor
  · intro t h
    refine ⟨cMain_some h, ?_, ?_⟩
    · unfold mainWithTm; split <;> rfl
    · unfold mainWithTm
      split
      · left; rfl
      · right; rfl
  · intro h
    exact cMain_none h

/-- Claim C2 (amended), witness: the amended theorem applied to the
real-system `localtime` behavior at the failure value. -/
theorem clock_failure_absorbed_witness :
    cMain (-1) localtimeAtFailure = some (mainWithTm tmEpochMinusOne) ∧
    (mainWithTm tmEpochMinusOne).exitCode = 0 ∧
    ((mainWithTm tmEpochMinusOne).stdout =
        [Effect.stdoutWrite launch_nuke_message] ∨
      (mainWithTm tmEpochMinusOne).stdout =
        [Effect.stdoutWrite normal_message]) :=
  (clock_failure_absorbed localtimeAtFailure).1 tmEpochMinusOne rfl

/-- A `localtime` implementation covering two dates: it decomposes the
trigger instant 2147558400 (2038-01-19 12:00:00 UTC) to the trigger date
and every other `time_t` value to the ordinary 2025 date. -/
def localtimeTwoDates : Int → Option Tm :=
  fun n => if n = 2147558400 then some tmTrigger else some tmOrdinary

/-- Claim C6, counterexample: the time source of `main` is the ambient
libc `time(NULL)` — the live system clock — and the program consumes no
other input (no arguments, no stdin, no environment variables), so there
is no seam through which a time could be substituted: the observable
output tracks the live clock reading. Concretely, under one `localtime`
environment, moving the live clock from the trigger instant to an
ordinary 2025 instant changes the output from the alternate marker to the
default marker, refuting "substitutable rather than hard-wired to the
live system clock". -/
theorem time_source_hardwired_counterexample :
    cMainLive (fun _ => 2147558400) localtimeTwoDates =
      some ⟨[Effect.stdoutWrite launch_nuke_message], 0⟩ ∧
    cMainLive (fun _ => 1749983400) localtimeTwoDates =
      some ⟨[Effect.stdoutWrite normal_message], 0⟩ ∧
    cMainLive (fun _ => 2147558400) localtimeTwoDates ≠
      cMainLive (fun _ => 1749983400) localtimeTwoDates :=
  ⟨by decide, by decide, by decide⟩

/-- Claim C6, amended: the program is deterministic given the clock
reading — any two runs in which the clock reports the same value under
the same `localtime` environment produce identical observable output —
but the time source is hard-wired, not substitutable: `main`'s only time
source is the ambient `time(NULL)` (the live system clock) and the
program takes no other input through which a time could be injected, so
its output is not independent of the live clock reading. -/
theorem deterministic_but_clock_hardwired :
    (∀ (clockA clockB : Unit → Int) (localtime : Int → Option Tm),
        clockA () = clockB () →
        cMainLive clockA localtime = cMainLive clockB localtime) ∧
    ¬ (∀ (clockA clockB : Unit → Int),
        cMainLive clockA localtimeTwoDates =
          cMainLive clockB localtimeTwoDates) := by
  constructor
  · intro clockA clockB localtime h
    simp [cMainLive, h]
  · intro h
    exact absurd (h (fun _ => 2147558400) (fun _ => 1749983400)) (by decide)

/-- Claim C6 (amended), witness: two syntactically different clocks that
report the same reading produce identical results. -/
theorem deterministic_but_clock_hardwired_witness :
    cMainLive (fun _ => 5) localtimeTrig =
      cMainLive (fun _ => 2 + 3) localtimeTrig :=
  deterministic_but_clock_hardwired.1 (fun _ => 5) (fun _ => 2 + 3)
    localtimeTrig (by decide)

/-- Claim C7: idempotence — among the outputs of any number of repeated
invocations with the same injected current time (and the same `localtime`
environment), any two are equal. -/
theorem repeated_invocations_identical
    (n : Nat) (nowRes : Int) (localtime : Int → Option Tm) :
    ∀ r₁ ∈ invocationOutputs n nowRes localtime,
      ∀ r₂ ∈ invocationOutputs n nowRes localtime, r₁ = r₂ := by
  intro r₁ h₁ r₂ h₂
  obtain ⟨a, _, ha⟩ := List.mem_map.1 h₁
  obtain ⟨b, _, hb⟩ := List.mem_map.1 h₂
  exact ha.symm.trans hb

/-- Claim C7, witness: three invocations at the trigger instant all agree
on the common output. -/
theorem repeated_invocations_identical_witness :
    some (mainWithTm tmTrigger) = some (mainWithTm tmTrigger) :=
  repeated_invocations_identical 3 2147558400 localtimeTrig
    (some (mainWithTm tmTrigger)) (by decide)
    (some (mainWithTm tmTrigger)) (by decide)

/-- Claim C8: whenever the program runs to completion (either branch), its
exit code — the value returned by `main` — is 0. -/
theorem exit_code_zero_on_completion
    (nowRes : Int) (localtime : Int → Option Tm) (r : ProgResult)
    (h : cMain nowRes localtime = some r) : r.exitCode = 0 := by
  cases hl : localtime nowRes with
  | none =>
      rw [cMain_none hl] at h
      exact Option.noConfusion h
  | some t =>
      rw [cMain_some hl] at h
      injection h with h
      subst h
      unfold mainWithTm
      split <;> rfl

/-- Claim C8, witness: the trigger branch completes with exit code 0. -/
theorem exit_code_zero_on_completion_witness :
    (mainWithTm tmTrigger).exitCode = 0 :=
  exit_code_zero_on_completion 2147558400 localtimeTrig
    (mainWithTm tmTrigger) rfl

/-- Claim C9: for every invocation that has a defined result, the
observable effect trace is exactly one stdout write — a single
newline-terminated line containing no interior newline — and nothing
else: the effect type records every effectful statement of the source
(all are `printf`), so the singleton trace excludes any other state
change, file or network I/O, or persisted state. -/
theorem single_line_stdout_only
    (nowRes : Int) (localtime : Int → Option Tm) (r : ProgResult)
    (h : cMain nowRes localtime = some r) :
    ∃ s : String, r.stdout = [Effect.stdoutWrite s] ∧
      s.toList.count (Char.ofNat 10) = 1 ∧
      s.toList.getLast? = some (Char.ofNat 10) := by
  cases hl : localtime nowRes with
  | none =>
      rw [cMain_none hl] at h
      exact Option.noConfusion h
  | some t =>
      rw [cMain_some hl] at h
      injection h with h
      subst h
      unfold mainWithTm
      split
      · exact ⟨launch_nuke_message, rfl, by decide, by decide⟩
      · exact ⟨normal_message, rfl, by decide, by decide⟩

/-- Claim C9, witness: the default branch writes exactly one line. -/
theorem single_line_stdout_only_witness :
    ∃ s : String,
      (mainWithTm tmOrdinary).stdout = [Effect.stdoutWrite s] ∧
      s.toList.count (Char.ofNat 10) = 1 ∧
      s.toList.getLast? = some (Char.ofNat 10) :=
  single_line_stdout_only 1749983400 (fun _ => some tmOrdinary)
    (mainWithTm tmOrdinary) rfl

/-- Claim C10: `main` dereferences the `localtime` result without a `NULL`
check, so the accesses to `tm_year`, `tm_mon`, `tm_mday` are defined only
under the precondition that `localtime` succeeds; under that precondition
the program always reaches a defined branch result, and a failed
decomposition has no handling path at all (the embedding's `none` result
marks the unchecked null-pointer dereference). -/
theorem localtime_deref_unchecked
    (nowRes : Int) (localtime : Int → Option Tm) :
    (localtime nowRes = none → cMain nowRes localtime = none) ∧
    (∀ t : Tm, localtime nowRes = some t →
      cMain nowRes localtime = some (mainWithTm t)) :=
  ⟨fun h => cMain_none h, fun _ h => cMain_some h⟩

/-- Claim C10, witness: a `NULL`-returning `localtime` yields no defined
result, and a succeeding one yields the branch result. -/
theorem localtime_deref_unchecked_witness :
    cMain 0 localtimeNull = none ∧
    cMain 0 localtimeTrig = some (mainWithTm tmTrigger) :=
  ⟨(localtime_deref_unchecked 0 localtimeNull).1 rfl,
    (localtime_deref_unchecked 0 localtimeTrig).2 tmTrigger rfl⟩

end TimeBomb
